import Mathlib

/-!
Verification of the raster-to-tiles pipeline implemented in
`generate_tiles.py`.  The script normalizes a single-band GeoTIFF to the
byte range with `gdal.Translate` scale parameters, colorizes it with a
color-relief lookup, overwrites the alpha channel with a validity mask
computed from the original raster, clips to mercator-safe latitudes,
reprojects to EPSG:3857 and finally shells out to `gdal2tiles`.

The development below embeds, per pixel and per run, the decisions the
script itself makes: which alpha value a pixel receives, which scale
parameters are passed to GDAL, the order of the pipeline stages, which
failures abort the run, and which temporary files exist afterwards.
External GDAL operations are modelled from the specification's stated
contracts; every parameter fed to them is taken verbatim from the script.
-/

/-- A pixel coordinate (row, column). -/
def Pixel : Type := Nat × Nat

/-- A source cell value as numpy sees it: either a finite float (embedded
as a rational) or a non-finite value (NaN or an infinity). -/
inductive SrcVal where
  | finite (q : ℚ)
  | nonFinite
deriving DecidableEq

/-- Embeds `np.isfinite` applied to one cell. -/
def SrcVal.isFinite : SrcVal → Bool :=
  fun v => match v with
  | .finite _ => true
  | .nonFinite => false

/-- The validity-mask (alpha) computation of the script, lines 98-107:
for a single-band source, `np.where(np.isfinite(src_arr), 255, 0)`;
for a multi-band source, the conjunction of `np.isfinite` over all bands.
An empty band list leaves the accumulator `None`, which `np.where` treats
as false, yielding 0.  The declared no-data value is never consulted. -/
def valid_alpha (bands : List (Pixel → SrcVal)) (p : Pixel) : ℕ :=
  match bands with
  | [] => 0
  | [b] => if (b p).isFinite then 255 else 0
  | bs => if bs.all (fun b => (b p).isFinite) then 255 else 0

/-- The validity predicate as the specification words it (for comparison
with `valid_alpha`): a pixel is valid iff every band's value is finite
AND differs from that band's declared no-data sentinel when one exists. -/
def spec_pixel_valid (nds : List (Option ℚ)) (bands : List (Pixel → SrcVal))
    (p : Pixel) : Bool :=
  (List.zip bands nds).all
    (fun bn =>
      (bn.1 p).isFinite &&
        (match bn.2 with
         | some nd => decide (bn.1 p ≠ SrcVal.finite nd)
         | none => true))

/-- The clamp lower bound hardcoded by the script (line 37). -/
def vmin : ℚ := 1021.5

/-- The clamp upper bound hardcoded by the script (line 38). -/
def vmax : ℚ := 1027.5

/-- The options handed to `gdal.Translate`, script lines 41-56.  The
branch with a declared source no-data value additionally passes
`srcNodata`/`dstNodata`; both branches scale `[vmin, vmax]` to `[1, 255]`
and declare 0 as the output no-data value. -/
structure TranslateOptions where
  format : String
  outputType : String
  scaleParams : List (ℚ × ℚ × ℤ × ℤ)
  noData : ℤ
  srcNodata : Option ℚ
  dstNodata : Option ℤ

/-- The script's construction of the translate options (lines 41-56). -/
def translate_opts (v₁ v₂ : ℚ) (src_nd : Option ℚ) : TranslateOptions :=
  match src_nd with
  | some nd =>
    { format := "MEM", outputType := "Byte",
      scaleParams := [(v₁, v₂, 1, 255)], noData := 0,
      srcNodata := some nd, dstNodata := some 0 }
  | none =>
    { format := "MEM", outputType := "Byte",
      scaleParams := [(v₁, v₂, 1, 255)], noData := 0,
      srcNodata := none, dstNodata := none }

/-- Modelled from the spec: the linear scaling a single GDAL scale
parameter entry performs on a finite cell value, clamping to the source
range and rounding into the destination integer range:
out = round(dmin + (clamp(v, smin, smax) - smin) / (smax - smin) * (dmax - dmin)). -/
def scaleParamApply (smin smax : ℚ) (dmin dmax : ℤ) (v : ℚ) : ℤ :=
  round ((dmin : ℚ) + (min smax (max smin v) - smin) / (smax - smin) * ((dmax : ℚ) - (dmin : ℚ)))

/-- Modelled from the spec: the per-cell action of `gdal.Translate` under
the options the script builds (the GDAL binary itself is an external
collaborator).  A non-finite cell, or a cell equal to the declared source
no-data value, maps to the declared output no-data sentinel; every other
finite cell is scaled by the (single) scale-parameter entry. -/
def gdalTranslateCell (opts : TranslateOptions) (v : SrcVal) : ℤ :=
  match v with
  | .nonFinite => opts.noData
  | .finite q =>
    if opts.srcNodata = some q then opts.noData
    else
      match opts.scaleParams with
      | (smin, smax, dmin, dmax) :: _ => scaleParamApply smin smax dmin dmax q
      | [] => round q

/-- The normalizer the script realizes: `gdal.Translate` with the
hardcoded clamp bounds and the source's declared no-data value. -/
def normalizeCell (src_nd : Option ℚ) (v : SrcVal) : ℤ :=
  gdalTranslateCell (translate_opts vmin vmax src_nd) v

/-- The failure modes the script can actually raise (each constructor is
one of its `raise` sites, plus the generic gdal2tiles exit-code error). -/
inductive ScriptError where
  | openFailed
  | scalingFailed
  | colormapNotFound
  | colorReliefFailed
  | reopenFailed
  | missingAlphaBand
  | gdal2tilesFailed (rc : ℤ)
deriving DecidableEq

/-- Whether an `Except` result is a success. -/
def isOkE {α : Type} : Except ScriptError α → Bool :=
  fun e => match e with
  | .ok _ => true
  | .error _ => false

/-- The scaling stage of the script (lines 36-62) as a fallible function:
it builds the translate options from whatever bounds are in scope and
checks only whether the external `gdal.Translate` call returned a
dataset.  No validation of the bounds is performed anywhere. -/
def translateStage (v₁ v₂ : ℚ) (translateOk : Bool) (src_nd : Option ℚ) :
    Except ScriptError (SrcVal → ℤ) :=
  if translateOk then .ok (gdalTranslateCell (translate_opts v₁ v₂ src_nd))
  else .error .scalingFailed

/-- The tiling stage of the script (lines 145-158): the zoom string is
passed verbatim to the external `gdal2tiles` subprocess and never parsed
or validated; the only failure is a nonzero subprocess exit code. -/
def gdal2tilesStage (zoom : String) (rc : ℤ) : Except ScriptError Unit :=
  if rc = 0 then .ok () else .error (.gdal2tilesFailed rc)

/-- Name of the colorized temporary raster (script line 84). -/
def temp_color_tif : String := "temp_color.tif"

/-- Name of the clipped intermediate raster (script line 131). -/
def clipped_4326 : String := "temp_color_clip4326.tif"

/-- Name of the reprojected intermediate raster (script line 142). -/
def warped_tif : String := "temp_color_3857.tif"

/-- An RGBA pixel. -/
structure RGBA where
  r : ℕ
  g : ℕ
  b : ℕ
  a : ℕ
deriving DecidableEq

/-- Fully transparent black. -/
def RGBAtransparent : RGBA := ⟨0, 0, 0, 0⟩

/-- The colorized raster produced by `gdal.DEMProcessing` color-relief
with `addAlpha=True`: some RGB surface together with whatever alpha the
colorization produced (both are external inputs to the script's later
steps, so they are parameters here). -/
def colorized (rgb : Pixel → ℕ × ℕ × ℕ) (al : Pixel → ℕ) : Pixel → RGBA :=
  fun p => ⟨(rgb p).1, (rgb p).2.1, (rgb p).2.2, al p⟩

/-- The alpha overwrite the script performs on `temp_color.tif`
(lines 109-117): band 4 is replaced wholesale by the validity mask,
the RGB bands are untouched. -/
def overwriteAlphaImg (img : Pixel → RGBA) (mask : Pixel → ℕ) : Pixel → RGBA :=
  fun p => ⟨(img p).r, (img p).g, (img p).b, mask p⟩

/-- The raster the script hands to the first `gdal.Warp` call: the
colorized raster with its alpha band overwritten by the validity mask. -/
def clipInputOf (rgb : Pixel → ℕ × ℕ × ℕ) (al : Pixel → ℕ)
    (bands : List (Pixel → SrcVal)) : Pixel → RGBA :=
  overwriteAlphaImg (colorized rgb al) (valid_alpha bands)

/-- The options of a `gdal.Warp` invocation, as the script sets them. -/
structure WarpOptions where
  dstSRS : String
  outputBounds : Option (ℚ × ℚ × ℚ × ℚ)
  outputBoundsSRS : Option String
  resampleAlg : String
  multithread : Bool
  srcAlpha : Bool
  dstAlpha : Bool

/-- The mercator-safe geographic bounds (script line 120). -/
def safe_bounds_4326 : ℚ × ℚ × ℚ × ℚ := (-180, -85.05112878, 180, 85.05112878)

/-- Options of the pre-clip warp (script lines 122-130). -/
def clip_opts : WarpOptions :=
  { dstSRS := "EPSG:4326", outputBounds := some safe_bounds_4326,
    outputBoundsSRS := some ("EPSG:4326"), resampleAlg := "nearest",
    multithread := true, srcAlpha := true, dstAlpha := true }

/-- Options of the reprojection warp (script lines 135-141). -/
def warp_opts : WarpOptions :=
  { dstSRS := "EPSG:3857", outputBounds := none,
    outputBoundsSRS := none, resampleAlg := "nearest",
    multithread := true, srcAlpha := true, dstAlpha := true }

/-- Modelled from the spec: a nearest-neighbor warp.  Each destination
pixel either copies exactly one source pixel (chosen by the geometric
selector) or, when the destination lies outside the source extent, is
fully transparent.  No channel is ever interpolated or blended. -/
def warpNearest (sel : Pixel → Option Pixel) (img : Pixel → RGBA) : Pixel → RGBA :=
  fun p => match sel p with
  | some q => img q
  | none => RGBAtransparent

/-- The external outcomes a run of the script can observe: whether each
checked external call succeeds, and the exit code of `gdal2tiles`.  These
are exactly the conditions the script tests (lines 27, 61, 68, 80, 94,
111, 155). -/
structure Env where
  openOk : Bool
  translateOk : Bool
  colormapExists : Bool
  colorReliefOk : Bool
  reopenOk : Bool
  alphaOk : Bool
  rc : ℤ

/-- The observable events of one run of the script, in program order. -/
inductive Event where
  | makedirs
  | opened
  | translated
  | colormapChecked
  | colorizedEv
  | created (f : String)
  | reopened
  | overwroteAlpha
  | clipped
  | warped
  | tiled (z : String)
  | removed (f : String)
  | raised (e : ScriptError)
deriving DecidableEq

/-- The straight-line trace of `main` (script lines 22-166): the output
directory is created first, then each stage runs in order; the first
failed check raises and ends the run; on full success the cleanup
removes `temp_color.tif` (twice, lines 161-166) and
`temp_color_3857.tif`, and nothing else. -/
def runScript (env : Env) (z : String) : List Event :=
  Event.makedirs :: Event.opened ::
    (if env.openOk then
      Event.translated ::
        (if env.translateOk then
          Event.colormapChecked ::
            (if env.colormapExists then
              Event.colorizedEv ::
                (if env.colorReliefOk then
                  Event.created temp_color_tif :: Event.reopened ::
                    (if env.reopenOk then
                      (if env.alphaOk then
                        Event.overwroteAlpha :: Event.clipped ::
                        Event.created clipped_4326 :: Event.warped ::
                        Event.created warped_tif :: Event.tiled z ::
                          (if env.rc = 0 then
                            [Event.removed temp_color_tif,
                             Event.removed temp_color_tif,
                             Event.removed warped_tif]
                          else [Event.raised (ScriptError.gdal2tilesFailed env.rc)])
                      else [Event.raised ScriptError.missingAlphaBand])
                    else [Event.raised ScriptError.reopenFailed])
                else [Event.raised ScriptError.colorReliefFailed])
            else [Event.raised ScriptError.colormapNotFound])
        else [Event.raised ScriptError.scalingFailed])
    else [Event.raised ScriptError.openFailed])

/-- Whether an event is an uncaught exception. -/
def Event.isRaised : Event → Bool :=
  fun e => match e with
  | .raised _ => true
  | _ => false

/-- The process exit status: zero (true) iff no exception was raised. -/
def exitOk (tr : List Event) : Bool :=
  !(tr.any Event.isRaised)

/-- One filesystem step: `created` adds a file, `removed` deletes it
(`os.remove` guarded by `os.path.exists`), all other events leave the
set of temporary files unchanged. -/
def fsStep (fs : List String) (e : Event) : List String :=
  match e with
  | .created f => f :: fs
  | .removed f => fs.erase f
  | _ => fs

/-- The temporary files present after a run with the given trace. -/
def filesAfter (tr : List Event) : List String :=
  tr.foldl fsStep []

/-- Event `a` occurs strictly before some occurrence of event `b`. -/
def before (a b : Event) (tr : List Event) : Prop :=
  ∃ l₁ l₂, tr = l₁ ++ a :: l₂ ∧ b ∈ l₂

/-- All checks up to and including the alpha-band check succeed. -/
def okFlags (env : Env) : Prop :=
  env.openOk = true ∧ env.translateOk = true ∧ env.colormapExists = true ∧
    env.colorReliefOk = true ∧ env.reopenOk = true ∧ env.alphaOk = true

/-- Every external call succeeds and `gdal2tiles` exits zero. -/
def allOk (env : Env) : Prop :=
  okFlags env ∧ env.rc = 0

/-- The fully successful environment. -/
def envAllOk : Env := ⟨true, true, true, true, true, true, 0⟩

/-- The environment where everything succeeds except `gdal2tiles`. -/
def envTilesFail : Env := ⟨true, true, true, true, true, true, 1⟩

/-- The environment where the input raster cannot be opened. -/
def envOpenFail : Env := ⟨false, true, true, true, true, true, 0⟩

/-- The default zoom string of the script (line 14). -/
def zDefault : String := "0-3"

/-- The single-band raster of the spec's scenario: every cell holds the
finite no-data sentinel value -9999. -/
def cxBand : Pixel → SrcVal := fun _ => SrcVal.finite (-9999)

/-- The band list of the counterexample raster. -/
def cxBands : List (Pixel → SrcVal) := [cxBand]

/-- The declared no-data sentinels of the counterexample raster. -/
def cxNds : List (Option ℚ) := [some (-9999)]

/-- A fixed pixel. -/
def p0 : Pixel := (0, 0)

theorem runScript_okFlags (env : Env) (z : String) (h : okFlags env) :
    runScript env z =
      Event.makedirs :: Event.opened :: Event.translated :: Event.colormapChecked ::
      Event.colorizedEv :: Event.created temp_color_tif :: Event.reopened ::
      Event.overwroteAlpha :: Event.clipped :: Event.created clipped_4326 ::
      Event.warped :: Event.created warped_tif :: Event.tiled z ::
        (if env.rc = 0 then
          [Event.removed temp_color_tif, Event.removed temp_color_tif,
           Event.removed warped_tif]
        else [Event.raised (ScriptError.gdal2tilesFailed env.rc)]) := by
  obtain ⟨h1, h2, h3, h4, h5, h6⟩ := h
  simp [runScript, h1, h2, h3, h4, h5, h6]

theorem mem_clipped_okFlags (env : Env) (z : String)
    (h : Event.clipped ∈ runScript env z) : okFlags env := by
  rcases env with ⟨o, t, c, cr, ro, al, rc⟩
  cases o <;> cases t <;> cases c <;> cases cr <;> cases ro <;> cases al <;>
    simp_all [runScript, okFlags]

theorem mem_warped_okFlags (env : Env) (z : String)
    (h : Event.warped ∈ runScript env z) : okFlags env := by
  rcases env with ⟨o, t, c, cr, ro, al, rc⟩
  cases o <;> cases t <;> cases c <;> cases cr <;> cases ro <;> cases al <;>
    simp_all [runScript, okFlags]

theorem exitOk_iff_allOk (env : Env) (z : String) :
    exitOk (runScript env z) = true ↔ allOk env := by
  rcases env with ⟨o, t, c, cr, ro, al, rc⟩
  cases o <;> cases t <;> cases c <;> cases cr <;> cases ro <;> cases al <;>
    by_cases hrc : rc = 0 <;>
    simp_all [runScript, exitOk, allOk, okFlags, Event.isRaised]

theorem roundMono {x y : ℚ} (h : x ≤ y) : round x ≤ round y := by
  rw [round_eq, round_eq]
  exact Int.floor_le_floor (by linarith)

theorem scaleConst_eq (v : ℚ) : scaleParamApply vmin vmax 1 255 v =
    round ((1 : ℚ) + (min 1027.5 (max 1021.5 v) - 1021.5) / 6 * 254) := by
  simp only [scaleParamApply, vmin, vmax]
  norm_num

theorem scaleConst_bounds (v : ℚ) :
    1 ≤ scaleParamApply vmin vmax 1 255 v ∧ scaleParamApply vmin vmax 1 255 v ≤ 255 := by
  rw [scaleConst_eq]
  have hcl : (1021.5 : ℚ) ≤ min 1027.5 (max 1021.5 v) :=
    le_min (by norm_num) (le_max_left _ _)
  have hcu : min (1027.5 : ℚ) (max 1021.5 v) ≤ 1027.5 := min_le_left _ _
  set c := min (1027.5 : ℚ) (max 1021.5 v) with hc
  have hnum : (0 : ℚ) ≤ (c - 1021.5) / 6 * 254 := by
    apply mul_nonneg (div_nonneg (by linarith) (by norm_num)) (by norm_num)
  have hup : (c - 1021.5) / 6 * 254 ≤ 254 := by
    rw [div_mul_eq_mul_div, div_le_iff₀ (by norm_num : (0:ℚ) < 6)]
    linarith
  constructor
  · calc (1 : ℤ) = round (1 : ℚ) := by simp
      _ ≤ round ((1 : ℚ) + (c - 1021.5) / 6 * 254) := roundMono (by linarith)
  · calc round ((1 : ℚ) + (c - 1021.5) / 6 * 254) ≤ round (255 : ℚ) :=
        roundMono (by linarith)
      _ = 255 := by
        have h255 : ((255 : ℤ) : ℚ) = 255 := by norm_num
        rw [← h255, round_intCast]

theorem scaleConst_mono {v w : ℚ} (h : v ≤ w) :
    scaleParamApply vmin vmax 1 255 v ≤ scaleParamApply vmin vmax 1 255 w := by
  rw [scaleConst_eq, scaleConst_eq]
  apply roundMono
  have hm : max (1021.5 : ℚ) v ≤ max 1021.5 w := max_le_max le_rfl h
  have hcc : min (1027.5 : ℚ) (max 1021.5 v) ≤ min 1027.5 (max 1021.5 w) :=
    min_le_min le_rfl hm
  set cv := min (1027.5 : ℚ) (max 1021.5 v)
  set cw := min (1027.5 : ℚ) (max 1021.5 w)
  have h2 : (cv - 1021.5) * 254 ≤ (cw - 1021.5) * 254 := by linarith
  rw [div_mul_eq_mul_div, div_mul_eq_mul_div]
  exact add_le_add_left ((div_le_div_iff_of_pos_right (by norm_num : (0:ℚ) < 6)).2 h2) 1

theorem scaleConst_hi {v : ℚ} (h : vmax ≤ v) : scaleParamApply vmin vmax 1 255 v = 255 := by
  rw [scaleConst_eq]
  rw [vmax] at h
  have h1 : max (1021.5 : ℚ) v = v := max_eq_right (by linarith)
  have h2 : min (1027.5 : ℚ) v = 1027.5 := min_eq_left (by linarith)
  rw [h1, h2]
  norm_num

theorem scaleConst_lo {v : ℚ} (h : v ≤ vmin) : scaleParamApply vmin vmax 1 255 v = 1 := by
  rw [scaleConst_eq]
  rw [vmin] at h
  have h1 : max (1021.5 : ℚ) v = 1021.5 := max_eq_left h
  rw [h1]
  norm_num

theorem normalizeCell_finite (nd : Option ℚ) (v : ℚ) (h : nd ≠ some v) :
    normalizeCell nd (SrcVal.finite v) = scaleParamApply vmin vmax 1 255 v := by
  cases nd with
  | none => rfl
  | some x => simp [normalizeCell, gdalTranslateCell, translate_opts, h]

/-- A zoom string with zMin greater than zMax. -/
def zInverted : String := "5-2"

/-- Claim C1 counterexample: on a single-band raster whose declared
no-data sentinel is the finite value -9999, a cell holding -9999 is
marked valid (alpha 255) by the script, while the claimed mask (finite
AND not equal to the sentinel) marks it invalid.  The claimed equivalence
fails at this concrete input. -/
theorem valid_alpha_sentinel_counterexample :
    ¬ (valid_alpha cxBands p0 = 255 ↔ spec_pixel_valid cxNds cxBands p0 = true) := by
  decide

/-- Claim C1 (amended): the validity mask marks a pixel valid (alpha 255)
iff every band's value at that pixel is finite; the declared no-data
sentinel is never consulted, so a cell holding a finite sentinel value
renders opaque, and the mask is binary (0 or 255). -/
theorem valid_alpha_finite_only (bands : List (Pixel → SrcVal)) (p : Pixel)
    (h : bands ≠ []) :
    (valid_alpha bands p = 255 ∨ valid_alpha bands p = 0) ∧
    (valid_alpha bands p = 255 ↔ bands.all (fun b => (b p).isFinite) = true) := by
  cases bands with
  | nil => exact absurd rfl h
  | cons b bs =>
    cases bs with
    | nil => cases hb : (b p).isFinite <;> simp [valid_alpha, hb]
    | cons b2 bs2 =>
      by_cases hall : ((b :: b2 :: bs2).all (fun bb => (bb p).isFinite)) = true
      · simp [valid_alpha, hall]
      · simp [valid_alpha, hall]

/-- Claim C1 witness: the amended statement at the concrete single-band
raster whose only cell value is the finite -9999. -/
theorem valid_alpha_finite_only_witness :
    (valid_alpha cxBands p0 = 255 ∨ valid_alpha cxBands p0 = 0) ∧
    (valid_alpha cxBands p0 = 255 ↔ cxBands.all (fun b => (b p0).isFinite) = true) :=
  valid_alpha_finite_only cxBands p0 (List.cons_ne_nil _ _)

/-- Claim C2: for every finite (non-sentinel) cell value v the normalizer
produces round(lo + (clamp(v, vmin, vmax) - vmin) / (vmax - vmin) * (hi - lo))
with lo = 1 and hi = 255; for v inside [vmin, vmax] the output lands in
[1, 255]; the output is monotone non-decreasing in v; and outside the
clamp range the output saturates at the boundary's mapped value. -/
theorem normalizer_linear_map (nd : Option ℚ) (v w : ℚ)
    (hv : nd ≠ some v) (hw : nd ≠ some w) :
    normalizeCell nd (SrcVal.finite v) =
      round ((1 : ℚ) + (min vmax (max vmin v) - vmin) / (vmax - vmin) * (255 - 1)) ∧
    (vmin ≤ v → v ≤ vmax →
      1 ≤ normalizeCell nd (SrcVal.finite v) ∧ normalizeCell nd (SrcVal.finite v) ≤ 255) ∧
    (v ≤ w → normalizeCell nd (SrcVal.finite v) ≤ normalizeCell nd (SrcVal.finite w)) ∧
    (vmax < v → normalizeCell nd (SrcVal.finite v) = 255) ∧
    (v < vmin → normalizeCell nd (SrcVal.finite v) = 1) := by
  rw [normalizeCell_finite nd v hv, normalizeCell_finite nd w hw]
  refine ⟨?_, fun _ _ => scaleConst_bounds v, fun hvw => scaleConst_mono hvw,
    fun hgt => scaleConst_hi (le_of_lt hgt), fun hlt => scaleConst_lo (le_of_lt hlt)⟩
  simp only [scaleParamApply]
  norm_num

/-- Claim C2 witness: the clamp boundaries evaluate to the mapped range
ends: 1021 (below vmin) maps to 1 and 1028 (above vmax) maps to 255. -/
theorem normalizer_linear_map_witness :
    normalizeCell none (SrcVal.finite 1021) = 1 ∧
    normalizeCell none (SrcVal.finite 1028) = 255 := by
  constructor
  · exact (normalizer_linear_map none 1021 1021 (by simp) (by simp)).2.2.2.2
      (by norm_num [vmin])
  · exact (normalizer_linear_map none 1028 1028 (by simp) (by simp)).2.2.2.1
      (by norm_num [vmax])

/-- Claim C3 counterexample: when every stage succeeds but `gdal2tiles`
exits nonzero, the process exits with a nonzero status, yet all three
temporary intermediate files are still on disk afterwards — the claimed
cleanup-on-failure does not happen. -/
theorem failure_leaves_temps_counterexample :
    exitOk (runScript envTilesFail zDefault) = false ∧
    temp_color_tif ∈ filesAfter (runScript envTilesFail zDefault) ∧
    clipped_4326 ∈ filesAfter (runScript envTilesFail zDefault) ∧
    warped_tif ∈ filesAfter (runScript envTilesFail zDefault) := by
  decide

/-- Claim C3 (amended): on any fatal error in any stage the process exits
with a nonzero status, and on success with status zero; however, the
temporary intermediate files are NOT cleaned up on failure — a failure in
the tiling stage leaves temp_color.tif, temp_color_clip4326.tif and
temp_color_3857.tif on disk (cleanup only runs after successful tiling). -/
theorem exit_status_and_temp_cleanup (env : Env) (z : String) :
    (exitOk (runScript env z) = true ↔ allOk env) ∧
    (okFlags env → env.rc ≠ 0 →
      temp_color_tif ∈ filesAfter (runScript env z) ∧
      clipped_4326 ∈ filesAfter (runScript env z) ∧
      warped_tif ∈ filesAfter (runScript env z)) := by
  refine ⟨exitOk_iff_allOk env z, fun h hrc => ?_⟩
  have hf : filesAfter (runScript env z) =
      [warped_tif, clipped_4326, temp_color_tif] := by
    rw [runScript_okFlags env z h, if_neg hrc]; rfl
  rw [hf]
  exact ⟨by decide, by decide, by decide⟩

/-- Claim C6: a non-finite cell, and a cell equal to the declared no-data
sentinel, normalize to the distinguished output sentinel 0; every other
finite cell normalizes into [1, 255]; and 0 lies outside [1, 255]. -/
theorem sentinel_zero_outside_range (nd : Option ℚ) (q v : ℚ) (hv : nd ≠ some v) :
    normalizeCell nd SrcVal.nonFinite = 0 ∧
    normalizeCell (some q) (SrcVal.finite q) = 0 ∧
    (1 ≤ normalizeCell nd (SrcVal.finite v) ∧ normalizeCell nd (SrcVal.finite v) ≤ 255) ∧
    ¬ (1 ≤ (0 : ℤ) ∧ (0 : ℤ) ≤ 255) := by
  refine ⟨?_, ?_, ?_, by norm_num⟩
  · cases nd <;> rfl
  · simp [normalizeCell, gdalTranslateCell, translate_opts]
  · rw [normalizeCell_finite nd v hv]; exact scaleConst_bounds v

/-- Claim C6 witness: the sentinel behaviour at concrete inputs — a
non-finite cell and a declared-nodata cell map to 0, and 1024 maps into
[1, 255]. -/
theorem sentinel_zero_outside_range_witness :
    normalizeCell none SrcVal.nonFinite = 0 ∧
    normalizeCell (some 0) (SrcVal.finite 0) = 0 ∧
    (1 ≤ normalizeCell none (SrcVal.finite 1024) ∧
      normalizeCell none (SrcVal.finite 1024) ≤ 255) ∧
    ¬ (1 ≤ (0 : ℤ) ∧ (0 : ℤ) ≤ 255) :=
  sentinel_zero_outside_range none 0 1024 (by simp)

/-- Claim C7 counterexample: with malformed clamp bounds (vmax = vmin = 0,
so vmax ≤ vmin) the scaling stage still succeeds when the external
`gdal.Translate` call does — the script raises no InvalidRangeError (no
such error exists in it, and the bounds are never validated). -/
theorem malformed_range_no_error_counterexample :
    ((0 : ℚ) ≤ 0) ∧ isOkE (translateStage 0 0 true none) = true :=
  ⟨le_refl 0, rfl⟩

/-- Claim C7 (amended): the scaling stage performs no validation of the
clamp bounds: whether it succeeds depends only on the external call, for
any bounds whatsoever; its only possible error is the generic scaling
failure; and the script's hardcoded bounds satisfy vmin < vmax, so the
malformed case cannot arise in a run. -/
theorem no_range_validation (v₁ v₂ : ℚ) (ok : Bool) (nd : Option ℚ) :
    isOkE (translateStage v₁ v₂ ok nd) = ok ∧
    (∀ e, translateStage v₁ v₂ ok nd = Except.error e →
      e = ScriptError.scalingFailed) ∧
    vmin < vmax := by
  refine ⟨by cases ok <;> rfl, fun e he => ?_, by norm_num [vmin, vmax]⟩
  cases ok with
  | true => exact absurd he (by simp [translateStage])
  | false =>
    simp only [translateStage, Bool.false_eq_true, if_false, Except.error.injEq] at he
    exact he.symm

/-- Claim C8 counterexample: with an inverted zoom range (zMin = 5 >
zMax = 2) the tiling stage succeeds whenever the gdal2tiles subprocess
exits zero — the script raises no InvalidZoomRangeError (no such error
exists in it, and the zoom string is never parsed or validated). -/
theorem inverted_zoom_no_error_counterexample :
    gdal2tilesStage zInverted 0 = Except.ok () := rfl

/-- Claim C8 (amended): the script performs no zoom validation: the
tiling stage's outcome is entirely independent of the zoom string, which
is passed verbatim to the external subprocess; its only failure is the
generic gdal2tiles error carrying the subprocess's nonzero exit code. -/
theorem no_zoom_validation (z₁ z₂ : String) (rc : ℤ) :
    gdal2tilesStage z₁ rc = gdal2tilesStage z₂ rc ∧
    (∀ e, gdal2tilesStage z₁ rc = Except.error e →
      e = ScriptError.gdal2tilesFailed rc ∧ rc ≠ 0) ∧
    (rc = 0 → gdal2tilesStage z₁ rc = Except.ok ()) := by
  refine ⟨rfl, fun e he => ?_, fun h => by simp [gdal2tilesStage, h]⟩
  by_cases h : rc = 0
  · simp [gdal2tilesStage, h] at he
  · simp only [gdal2tilesStage, if_neg h, Except.error.injEq] at he
    exact ⟨he.symm, h⟩

/-- Claim C4: the alpha channel of the raster handed to the first
`gdal.Warp` equals the validity mask derived from the original raster —
it overwrites whatever alpha the colorization produced while keeping the
RGB bands — and in the run trace the overwrite happens strictly before
both the safe-bounds clip and the reprojection. -/
theorem alpha_overwrite_before_reprojection (rgb : Pixel → ℕ × ℕ × ℕ)
    (al : Pixel → ℕ) (bands : List (Pixel → SrcVal)) (p : Pixel)
    (env : Env) (z : String) :
    (clipInputOf rgb al bands p).a = valid_alpha bands p ∧
    (clipInputOf rgb al bands p).r = (rgb p).1 ∧
    (clipInputOf rgb al bands p).g = (rgb p).2.1 ∧
    (clipInputOf rgb al bands p).b = (rgb p).2.2 ∧
    (Event.clipped ∈ runScript env z →
      before Event.overwroteAlpha Event.clipped (runScript env z)) ∧
    (Event.warped ∈ runScript env z →
      before Event.overwroteAlpha Event.warped (runScript env z)) := by
  refine ⟨rfl, rfl, rfl, rfl, fun hm => ?_, fun hm => ?_⟩
  · have h := mem_clipped_okFlags env z hm
    refine ⟨[Event.makedirs, Event.opened, Event.translated, Event.colormapChecked,
      Event.colorizedEv, Event.created temp_color_tif, Event.reopened],
      Event.clipped :: Event.created clipped_4326 :: Event.warped ::
        Event.created warped_tif :: Event.tiled z ::
        (if env.rc = 0 then
          [Event.removed temp_color_tif, Event.removed temp_color_tif,
           Event.removed warped_tif]
        else [Event.raised (ScriptError.gdal2tilesFailed env.rc)]), ?_, ?_⟩
    · rw [runScript_okFlags env z h]; rfl
    · exact List.mem_cons_self _ _
  · have h := mem_warped_okFlags env z hm
    refine ⟨[Event.makedirs, Event.opened, Event.translated, Event.colormapChecked,
      Event.colorizedEv, Event.created temp_color_tif, Event.reopened],
      Event.clipped :: Event.created clipped_4326 :: Event.warped ::
        Event.created warped_tif :: Event.tiled z ::
        (if env.rc = 0 then
          [Event.removed temp_color_tif, Event.removed temp_color_tif,
           Event.removed warped_tif]
        else [Event.raised (ScriptError.gdal2tilesFailed env.rc)]), ?_, ?_⟩
    · rw [runScript_okFlags env z h]; rfl
    · simp

/-- Claim C5: the Reprojector is two warps in order — first a clip to
longitude [-180, 180] and latitude [-85.05112878, 85.05112878] in
EPSG:4326, then a reprojection to EPSG:3857 — each configured with
nearest-neighbor resampling and alpha propagation (srcAlpha and
dstAlpha); and a nearest-neighbor warp never blends alpha: every output
pixel is either a verbatim copy of one source pixel or fully
transparent, so a binary alpha stays binary. -/
theorem clip_then_warp_nearest_alpha (sel : Pixel → Option Pixel)
    (img : Pixel → RGBA) (p : Pixel) (env : Env) (z : String) :
    clip_opts.dstSRS = "EPSG:4326" ∧
    clip_opts.outputBounds = some (-180, -85.05112878, 180, 85.05112878) ∧
    clip_opts.outputBoundsSRS = some ("EPSG:4326") ∧
    clip_opts.resampleAlg = "nearest" ∧
    clip_opts.srcAlpha = true ∧ clip_opts.dstAlpha = true ∧
    warp_opts.dstSRS = "EPSG:3857" ∧ warp_opts.outputBounds = none ∧
    warp_opts.resampleAlg = "nearest" ∧
    warp_opts.srcAlpha = true ∧ warp_opts.dstAlpha = true ∧
    (Event.warped ∈ runScript env z →
      before Event.clipped Event.warped (runScript env z)) ∧
    (warpNearest sel img p = RGBAtransparent ∨ ∃ q, warpNearest sel img p = img q) ∧
    ((∀ q, (img q).a = 0 ∨ (img q).a = 255) →
      (warpNearest sel img p).a = 0 ∨ (warpNearest sel img p).a = 255) := by
  refine ⟨rfl, rfl, rfl, rfl, rfl, rfl, rfl, rfl, rfl, rfl, rfl,
    fun hm => ?_, ?_, fun hbin => ?_⟩
  · have h := mem_warped_okFlags env z hm
    refine ⟨[Event.makedirs, Event.opened, Event.translated, Event.colormapChecked,
      Event.colorizedEv, Event.created temp_color_tif, Event.reopened,
      Event.overwroteAlpha],
      Event.created clipped_4326 :: Event.warped ::
        Event.created warped_tif :: Event.tiled z ::
        (if env.rc = 0 then
          [Event.removed temp_color_tif, Event.removed temp_color_tif,
           Event.removed warped_tif]
        else [Event.raised (ScriptError.gdal2tilesFailed env.rc)]), ?_, ?_⟩
    · rw [runScript_okFlags env z h]; rfl
    · simp
  · cases hsel : sel p with
    | none => exact Or.inl (by simp [warpNearest, hsel])
    | some q => exact Or.inr ⟨q, by simp [warpNearest, hsel]⟩
  · cases hsel : sel p with
    | none => exact Or.inl (by simp [warpNearest, hsel, RGBAtransparent])
    | some q =>
      have : warpNearest sel img p = img q := by simp [warpNearest, hsel]
      rw [this]
      exact hbin q

/-- Claim C9: on every run the output directory is created before the
input raster is opened (the trace starts with makedirs then the open
attempt), and consequently a run aborted because the raster cannot be
opened or the colormap file is missing still exits nonzero with the
output directory existing afterwards. -/
theorem outdir_created_before_open (env : Env) (z : String) :
    (∃ rest, runScript env z = Event.makedirs :: Event.opened :: rest) ∧
    (env.openOk = false ∨ env.colormapExists = false →
      exitOk (runScript env z) = false ∧ Event.makedirs ∈ runScript env z) := by
  refine ⟨⟨_, rfl⟩, fun h => ⟨?_, List.mem_cons_self _ _⟩⟩
  cases hE : exitOk (runScript env z) with
  | false => rfl
  | true =>
    have hA := (exitOk_iff_allOk env z).1 hE
    obtain ⟨⟨h1, h2, h3, h4, h5, h6⟩, h7⟩ := hA
    rcases h with h | h <;> simp_all

/-- Claim C10: the final cleanup removes only temp_color.tif and
temp_color_3857.tif — no run ever removes any other file — so after a
fully successful run the clipped intermediate temp_color_clip4326.tif
remains on disk while the other two temporaries are gone. -/
theorem cleanup_spares_clipped_intermediate (env : Env) (z : String) :
    (∀ f, Event.removed f ∈ runScript env z →
      f = temp_color_tif ∨ f = warped_tif) ∧
    (allOk env →
      clipped_4326 ∈ filesAfter (runScript env z) ∧
      temp_color_tif ∉ filesAfter (runScript env z) ∧
      warped_tif ∉ filesAfter (runScript env z)) := by
  constructor
  · intro f hf
    rcases env with ⟨o, t, c, cr, ro, al, rc⟩
    cases o <;> cases t <;> cases c <;> cases cr <;> cases ro <;> cases al <;>
      by_cases hrc : rc = 0 <;> simp_all [runScript]
  · intro hA
    have hf : filesAfter (runScript env z) = [clipped_4326] := by
      rw [runScript_okFlags env z hA.1, hA.2]; rfl
    rw [hf]
    exact ⟨by decide, by decide, by decide⟩
